import Mathlib

/-!
Shallow embedding, over exact rational arithmetic, of the F1 Manager
setup-optimizer core: the `SimpleMatrix` helper, the `SetupCalculator`
(linear bias model, confidence scoring, feedback classification) and the
`IterativeOptimizer` (candidate pool, narrowing, convergence statistics),
together with theorems checking the specification's claims.

Decimal literals of the source are written as the exact fractions they
denote (`0.4` as `4/10`, `0.007` as `7/1000`, and so on), because the
embedding uses exact rational arithmetic.
-/

namespace F1Setup

/-- The four qualitative feedback levels (`FeedbackType` in `types.ts`). -/
inductive FeedbackType where
  | BAD
  | GOOD
  | GREAT
  | OPTIMAL
  deriving DecidableEq, Repr, Fintype

/-- The five setup parameters (`SetupParameters` in `types.ts`). -/
structure SetupParameters where
  frontWingAngle : ℚ
  rearWingAngle : ℚ
  antiRollDistribution : ℚ
  tyreCamber : ℚ
  toeOut : ℚ
  deriving DecidableEq, Repr

/-- The five car bias metrics (`CarBias` in `types.ts`). -/
structure CarBias where
  oversteer : ℚ
  brakingStability : ℚ
  cornering : ℚ
  traction : ℚ
  straights : ℚ
  deriving DecidableEq, Repr

/-- Per-metric qualitative feedback (`Biasfeedback` in `types.ts`). -/
structure Biasfeedback where
  oversteer : FeedbackType
  brakingStability : FeedbackType
  cornering : FeedbackType
  traction : FeedbackType
  straights : FeedbackType
  deriving DecidableEq, Repr

/-- `SimpleMatrix` from `matrix.ts`: a matrix stored as a list of rows. -/
structure SimpleMatrix where
  data : List (List ℚ)
  deriving Repr

namespace SimpleMatrix

/-- `this.rows = data.length`. -/
def rows (m : SimpleMatrix) : ℕ := m.data.length

/-- `this.columns = data[0]?.length || 0`. -/
def columns (m : SimpleMatrix) : ℕ := (m.data.headD []).length

/-- `this.data[i][j]`; out-of-range reads default to 0 (never hit in the
calculator, whose dimensions always agree). -/
def entry (m : SimpleMatrix) (i j : ℕ) : ℚ := (m.data.getD i []).getD j 0

/-- `getRow(index)`. -/
def getRow (m : SimpleMatrix) (i : ℕ) : List ℚ := m.data.getD i []

/-- `sub(other)`: entry-wise `this.data[i][j] - other.data[i][j]` over
`i < this.rows`, `j < this.columns`. -/
def sub (m other : SimpleMatrix) : SimpleMatrix :=
  ⟨(List.range m.rows).map fun i =>
    (List.range m.columns).map fun j => m.entry i j - other.entry i j⟩

/-- `mmul(other)`: `result[i][j] = Σ_k this.data[i][k] * other.data[k][j]`
accumulated by the inner `for k` loop. -/
def mmul (m other : SimpleMatrix) : SimpleMatrix :=
  ⟨(List.range m.rows).map fun i =>
    (List.range other.columns).map fun j =>
      (List.range m.columns).foldl (fun sum k => sum + m.entry i k * other.entry k j) 0⟩

/-- `transpose()`: `result[j][i] = this.data[i][j]`. -/
def transpose (m : SimpleMatrix) : SimpleMatrix :=
  ⟨(List.range m.columns).map fun j =>
    (List.range m.rows).map fun i => m.entry i j⟩

end SimpleMatrix

/-- The coefficient matrix of `SetupCalculator` (rows = bias metrics,
columns = setup parameters); source decimals `0.4, -0.4, ...` written as
exact fractions. -/
def coefficientMatrix : SimpleMatrix :=
  ⟨[[4/10, -(4/10), -(1/10), 1/10, 2/10],
    [-(2/10), 2/10, 15/100, -(25/100), -(5/100)],
    [3/10, 25/100, -(15/100), 25/100, 0],
    [-(15/100), 25/100, 5/10, -(1/10), 0],
    [-(1/10), -(9/10), 0, 0, 0]]⟩

/-- The initial bias of `SetupCalculator`: the bias when every setup
parameter is at the middle position 0.5. -/
def initialBias : CarBias :=
  { oversteer := 5/10
    brakingStability := 45/100
    cornering := 2/10
    traction := 25/100
    straights := 1 }

/-- `SetupCalculator.calculateBias`: converts the setup to a row vector,
subtracts the middle setup, multiplies by the transposed coefficient
matrix, and adds the initial bias component-wise. -/
def calculateBias (setup : SetupParameters) : CarBias :=
  let setupArray := [setup.frontWingAngle, setup.rearWingAngle,
    setup.antiRollDistribution, setup.tyreCamber, setup.toeOut]
  let setupVector : SimpleMatrix := ⟨[setupArray]⟩
  let middleSetup : SimpleMatrix := ⟨[[5/10, 5/10, 5/10, 5/10, 5/10]]⟩
  let setupDiff := setupVector.sub middleSetup
  let biasChanges := setupDiff.mmul coefficientMatrix.transpose
  let biasArray := biasChanges.getRow 0
  { oversteer := initialBias.oversteer + biasArray.getD 0 0
    brakingStability := initialBias.brakingStability + biasArray.getD 1 0
    cornering := initialBias.cornering + biasArray.getD 2 0
    traction := initialBias.traction + biasArray.getD 3 0
    straights := initialBias.straights + biasArray.getD 4 0 }

/-- `SetupCalculator.calculateConfidence`: start at 100 and, for each bias
metric whose distance from 0.5 exceeds the optimal tolerance 0.007,
subtract `min(distance * 100, 20)`; floor the result at 0. -/
def calculateConfidence (bias : CarBias) : ℚ :=
  let biasValues := [bias.oversteer, bias.brakingStability, bias.cornering,
    bias.traction, bias.straights]
  let totalConfidence := biasValues.foldl
    (fun totalConfidence value =>
      let distance := |value - 5/10|
      if 7/1000 < distance then totalConfidence - min (distance * 100) 20
      else totalConfidence) 100
  max 0 totalConfidence

/-- The fixed order `[BAD, GOOD, GREAT, OPTIMAL]` used by the
compatibility checks in both `calculator.ts` and `optimizer.ts`. -/
def feedbackOrder : List FeedbackType := [.BAD, .GOOD, .GREAT, .OPTIMAL]

/-- `feedbackOrder.indexOf(x)` as an integer (every level occurs in the
list, so the JS `-1` missing case never arises). -/
def feedbackIndex (x : FeedbackType) : ℤ := feedbackOrder.indexOf x

/-- `IterativeOptimizer.feedbackCompatible`: two levels are compatible iff
their positions in `feedbackOrder` differ by at most 1. -/
def feedbackCompatible (calculated expected : FeedbackType) : Bool :=
  decide (|feedbackIndex calculated - feedbackIndex expected| ≤ 1)

/-- `SetupCalculator.feedbackMatches`: textually the same rule as
`feedbackCompatible`, re-implemented in `calculator.ts`. -/
def calcFeedbackMatches (calculated expected : FeedbackType) : Bool :=
  decide (|feedbackIndex calculated - feedbackIndex expected| ≤ 1)

/-- `IterativeOptimizer.feedbackMatches`: `metrics.every(...)` over the
five bias metrics. -/
def feedbackMatches (calculated expected : Biasfeedback) : Bool :=
  feedbackCompatible calculated.oversteer expected.oversteer &&
  feedbackCompatible calculated.brakingStability expected.brakingStability &&
  feedbackCompatible calculated.cornering expected.cornering &&
  feedbackCompatible calculated.traction expected.traction &&
  feedbackCompatible calculated.straights expected.straights

/-- `IterativeOptimizer.classifyBiasMetric`: per-metric feedback from the
distance of one bias value to 0.5. -/
def classifyBiasMetric (value : ℚ) : FeedbackType :=
  let distance := |value - 5/10|
  if distance ≤ 7/1000 then .OPTIMAL
  else if distance ≤ 4/100 then .GREAT
  else if distance ≤ 1/10 then .GOOD
  else .BAD

/-- `IterativeOptimizer.generateFeedback`: classify each bias metric. -/
def generateFeedback (bias : CarBias) : Biasfeedback :=
  { oversteer := classifyBiasMetric bias.oversteer
    brakingStability := classifyBiasMetric bias.brakingStability
    cornering := classifyBiasMetric bias.cornering
    traction := classifyBiasMetric bias.traction
    straights := classifyBiasMetric bias.straights }

/-- `IterativeOptimizer.calculateScore`: confidence, plus a balance bonus,
minus a penalty for bias components outside `[0, 1]`, floored at 0. -/
def calculateScore (setup : SetupParameters) (bias : CarBias) (confidence : ℚ) : ℚ :=
  let setupValues := [setup.frontWingAngle, setup.rearWingAngle,
    setup.antiRollDistribution, setup.tyreCamber, setup.toeOut]
  let balance := (setupValues.foldl (fun sum val => sum + |val - 5/10|) 0) /
    (setupValues.length : ℚ)
  let extremeBias := [bias.oversteer, bias.brakingStability, bias.cornering,
      bias.traction, bias.straights].foldl
    (fun sum val =>
      if val < 0 ∨ 1 < val then sum + |if val < 0 then val else val - 1| * 50
      else sum) 0
  max 0 (confidence + (5/10 - balance) * 20 - extremeBias)

/-- A scored member of the candidate pool (`SetupCandidate` in
`optimizer.ts`). -/
structure SetupCandidate where
  setup : SetupParameters
  bias : CarBias
  confidence : ℚ
  feedback : Biasfeedback
  score : ℚ
  deriving DecidableEq, Repr

/-- One entry of `attemptHistory` in `optimizer.ts`. -/
structure AttemptRecord where
  setup : SetupParameters
  feedback : Biasfeedback
  confidence : ℚ
  deriving DecidableEq, Repr

/-- The mutable state of an `IterativeOptimizer` instance: the candidate
pool and the attempt history. -/
structure OptimizerState where
  candidates : List SetupCandidate
  attemptHistory : List AttemptRecord
  deriving Repr

/-- The common evaluation of one setup into a pool candidate; this block
appears verbatim in both `initializeCandidates` and
`expandCandidatesAroundBest` in `optimizer.ts`. -/
def evaluateCandidate (setup : SetupParameters) : SetupCandidate :=
  let bias := calculateBias setup
  let confidence := calculateConfidence bias
  let feedback := generateFeedback bias
  let score := calculateScore setup bias confidence
  ⟨setup, bias, confidence, feedback, score⟩

/-- The descending-score order used for the pool: candidate `a` precedes
candidate `b` when `a.score ≥ b.score` (the JS comparator
`(a, b) => b.score - a.score`). -/
def scoreGe (a b : SetupCandidate) : Prop := b.score ≤ a.score

instance : DecidableRel scoreGe := fun a b => inferInstanceAs (Decidable (b.score ≤ a.score))

instance : IsTotal SetupCandidate scoreGe := ⟨fun a b => le_total b.score a.score⟩

instance : IsTrans SetupCandidate scoreGe := ⟨fun _ _ _ hab hbc => le_trans hbc hab⟩

/-- `this.candidates.sort((a, b) => b.score - a.score)`: a sorted
permutation of the pool in descending score order (modelled by insertion
sort; the claims below concern sortedness and membership, on which any
sorted permutation agrees). -/
def sortByScore (l : List SetupCandidate) : List SetupCandidate :=
  List.insertionSort scoreGe l

/-- The loop indices `0, 2, 4, 6, 8, 10` of
`for (let fw = 0; fw <= steps; fw += 2)` with `steps = 10` in
`initializeCandidates`. -/
def stepIndices : List ℕ := [0, 2, 4, 6, 8, 10]

/-- The raw 6^5 grid evaluated by the nested loops of
`initializeCandidates` (each parameter `i/10` for `i = 0, 2, ..., 10`),
before the final sort. -/
def initGrid : List SetupCandidate :=
  stepIndices.flatMap fun fw =>
  stepIndices.flatMap fun rw =>
  stepIndices.flatMap fun ar =>
  stepIndices.flatMap fun tc =>
  stepIndices.map fun t0 =>
    evaluateCandidate
      { frontWingAngle := (fw : ℚ) / 10
        rearWingAngle := (rw : ℚ) / 10
        antiRollDistribution := (ar : ℚ) / 10
        tyreCamber := (tc : ℚ) / 10
        toeOut := (t0 : ℚ) / 10 }

/-- `IterativeOptimizer.initializeCandidates`: evaluate every grid point
and sort the result by descending score. -/
def initCandidates : List SetupCandidate := sortByScore initGrid

/-- The freshly constructed optimizer: empty history and the initial
pool. -/
def initialState : OptimizerState :=
  { candidates := initCandidates, attemptHistory := [] }

/-- `IterativeOptimizer.clamp`. -/
def clamp (value mn mx : ℚ) : ℚ := max mn (min mx value)

/-- One iteration of the loop body of `generateVariations`: each parameter
independently jittered by `(random - 0.5) * range` and clamped to
`[0, 1]`.  The pseudo-random source is modelled as an explicit stream
`rng : ℕ → ℚ`; the five `Math.random()` calls of one variation read
positions `start, ..., start + 4`. -/
def makeVariation (base : SetupParameters) (range : ℚ) (rng : ℕ → ℚ) (start : ℕ) :
    SetupParameters :=
  { frontWingAngle := clamp (base.frontWingAngle + (rng start - 5/10) * range) 0 1
    rearWingAngle := clamp (base.rearWingAngle + (rng (start + 1) - 5/10) * range) 0 1
    antiRollDistribution := clamp (base.antiRollDistribution + (rng (start + 2) - 5/10) * range) 0 1
    tyreCamber := clamp (base.tyreCamber + (rng (start + 3) - 5/10) * range) 0 1
    toeOut := clamp (base.toeOut + (rng (start + 4) - 5/10) * range) 0 1 }

/-- `IterativeOptimizer.generateVariations(baseSetup, range, count)`. -/
def generateVariations (base : SetupParameters) (range : ℚ) (count : ℕ) (rng : ℕ → ℚ)
    (start : ℕ) : List SetupParameters :=
  match count with
  | 0 => []
  | n + 1 => makeVariation base range rng start ::
      generateVariations base range n rng (start + 5)

/-- The body of the inner `for (const variation of variations)` loop of
`expandCandidatesAroundBest`: evaluate the variation and keep it only when
its generated feedback is compatible with the submitted feedback. -/
def evaluateVariation (feedback : Biasfeedback) (variation : SetupParameters) :
    Option SetupCandidate :=
  let bias := calculateBias variation
  let confidence := calculateConfidence bias
  let candidateFeedback := generateFeedback bias
  if feedbackMatches candidateFeedback feedback then
    some ⟨variation, bias, confidence, candidateFeedback,
      calculateScore variation bias confidence⟩
  else none

/-- The outer `for (const candidate of topCandidates)` loop of
`expandCandidatesAroundBest`: 5 variations with range 0.1 around each top
candidate, keeping the compatible ones.  Each candidate consumes 25
positions of the random stream. -/
def expandLoop (feedback : Biasfeedback) (rng : ℕ → ℚ) :
    List SetupCandidate → ℕ → List SetupCandidate
  | [], _ => []
  | candidate :: rest, start =>
      (generateVariations candidate.setup (1/10) 5 rng start).filterMap
        (evaluateVariation feedback)
        ++ expandLoop feedback rng rest (start + 25)

/-- `IterativeOptimizer.expandCandidatesAroundBest`: push the compatible
variations of the top 3 candidates onto the pool. -/
def expandCandidatesAroundBest (cands : List SetupCandidate) (feedback : Biasfeedback)
    (rng : ℕ → ℚ) : List SetupCandidate :=
  cands ++ expandLoop feedback rng (cands.take 3) 0

/-- `IterativeOptimizer.narrowCandidates`: filter the pool by feedback
compatibility, regenerate around the best survivors when fewer than 5
remain, and re-sort by descending score. -/
def narrowCandidates (cands : List SetupCandidate) (feedback : Biasfeedback)
    (rng : ℕ → ℚ) : List SetupCandidate :=
  let filtered := cands.filter fun candidate => feedbackMatches candidate.feedback feedback
  let afterExpand :=
    if filtered.length < 5 then expandCandidatesAroundBest filtered feedback rng
    else filtered
  sortByScore afterExpand

/-- `IterativeOptimizer.recordAttempt`: append an attempt record with the
computed confidence, then narrow the pool. -/
def recordAttempt (state : OptimizerState) (setup : SetupParameters)
    (feedback : Biasfeedback) (rng : ℕ → ℚ) : OptimizerState :=
  let bias := calculateBias setup
  let confidence := calculateConfidence bias
  { attemptHistory := state.attemptHistory ++ [⟨setup, feedback, confidence⟩]
    candidates := narrowCandidates state.candidates feedback rng }

/-- `IterativeOptimizer.calculateConvergenceRate`: 0 with fewer than 2
attempts, otherwise the mean of successive confidence deltas floored at
0 by `Math.max(0, avgImprovement)`. -/
def calculateConvergenceRate (history : List AttemptRecord) : ℚ :=
  if history.length < 2 then 0
  else
    let confidences := history.map (·.confidence)
    let improvements := List.zipWith (fun a b => a - b) (confidences.drop 1) confidences
    let avgImprovement := improvements.foldl (· + ·) 0 / (improvements.length : ℚ)
    max 0 avgImprovement

/-- The record returned by `IterativeOptimizer.getStats`. -/
structure OptimizerStats where
  totalCandidates : ℕ
  attemptCount : ℕ
  bestConfidence : ℚ
  convergenceRate : ℚ
  deriving Repr

/-- `IterativeOptimizer.getStats`: the best confidence is the head of the
(sorted) pool, or 0 when the pool is empty. -/
def getStats (state : OptimizerState) : OptimizerStats :=
  let bestConfidence :=
    match state.candidates with
    | [] => 0
    | best :: _ => best.confidence
  { totalCandidates := state.candidates.length
    attemptCount := state.attemptHistory.length
    bestConfidence := bestConfidence
    convergenceRate := calculateConvergenceRate state.attemptHistory }

/-- `IterativeOptimizer.reset`: clear the history and regenerate the
initial pool. -/
def reset (_state : OptimizerState) : OptimizerState :=
  { attemptHistory := [], candidates := initCandidates }

/-- `IterativeOptimizer.predictConfidence`: pure pass-through to the
calculator, independent of the pool. -/
def predictConfidence (setup : SetupParameters) : ℚ :=
  calculateConfidence (calculateBias setup)

/-- `IterativeOptimizer.isOptimal`: false on an empty pool, otherwise
whether the top candidate's confidence reaches 99. -/
def isOptimal (state : OptimizerState) : Bool :=
  match state.candidates with
  | [] => false
  | best :: _ => decide (99 ≤ best.confidence)

/-- `IterativeOptimizer.estimateAttemptsToOptimal`: 0 once the best
confidence reaches 99, the fixed default 5 when the convergence rate is
not positive, otherwise `ceil((99 - best) / rate)`. -/
def estimateAttemptsToOptimal (state : OptimizerState) : ℤ :=
  let stats := getStats state
  if 99 ≤ stats.bestConfidence then 0
  else if stats.convergenceRate ≤ 0 then 5
  else Int.ceil ((99 - stats.bestConfidence) / stats.convergenceRate)

/-- The middle setup `(0.5, 0.5, 0.5, 0.5, 0.5)`. -/
def middleSetupParams : SetupParameters := ⟨5/10, 5/10, 5/10, 5/10, 5/10⟩

/-! ## Specification-side definitions

These follow the spec's wording and are compared against the embedded
source functions. -/

/-- Dot product of a coefficient row with a vector, both as 5-element
lists (the spec's "dot product over the 5 setup parameters"). -/
def specDot (row diff : List ℚ) : ℚ :=
  (List.zipWith (· * ·) row diff).foldl (· + ·) 0

/-- The spec's invariant, written as stated: component `m` of the bias is
`initialBias_m + row_m(CoefficientMatrix) · (setup − 0.5·𝟙)`. -/
def specBias (s : SetupParameters) : CarBias :=
  let diff := [s.frontWingAngle - 5/10, s.rearWingAngle - 5/10,
    s.antiRollDistribution - 5/10, s.tyreCamber - 5/10, s.toeOut - 5/10]
  { oversteer := initialBias.oversteer + specDot (coefficientMatrix.getRow 0) diff
    brakingStability := initialBias.brakingStability + specDot (coefficientMatrix.getRow 1) diff
    cornering := initialBias.cornering + specDot (coefficientMatrix.getRow 2) diff
    traction := initialBias.traction + specDot (coefficientMatrix.getRow 3) diff
    straights := initialBias.straights + specDot (coefficientMatrix.getRow 4) diff }

/-- Component-wise sum of two setups. -/
def addSetup (x y : SetupParameters) : SetupParameters :=
  ⟨x.frontWingAngle + y.frontWingAngle, x.rearWingAngle + y.rearWingAngle,
    x.antiRollDistribution + y.antiRollDistribution, x.tyreCamber + y.tyreCamber,
    x.toeOut + y.toeOut⟩

/-- Component-wise difference of two setups. -/
def subSetup (x y : SetupParameters) : SetupParameters :=
  ⟨x.frontWingAngle - y.frontWingAngle, x.rearWingAngle - y.rearWingAngle,
    x.antiRollDistribution - y.antiRollDistribution, x.tyreCamber - y.tyreCamber,
    x.toeOut - y.toeOut⟩

/-- Component-wise sum of two bias vectors. -/
def addBias (x y : CarBias) : CarBias :=
  ⟨x.oversteer + y.oversteer, x.brakingStability + y.brakingStability,
    x.cornering + y.cornering, x.traction + y.traction, x.straights + y.straights⟩

/-- Component-wise difference of two bias vectors. -/
def subBias (x y : CarBias) : CarBias :=
  ⟨x.oversteer - y.oversteer, x.brakingStability - y.brakingStability,
    x.cornering - y.cornering, x.traction - y.traction, x.straights - y.straights⟩

/-- The spec's per-component confidence penalty: `min(distance × 100, 20)`
when `distance > 0.007`, nothing otherwise. -/
def specPenalty (value : ℚ) : ℚ :=
  let distance := |value - 5/10|
  if 7/1000 < distance then min (distance * 100) 20 else 0

/-- The spec's confidence algorithm as stated: start at 100, subtract the
five per-component penalties, clamp the result to ≥ 0. -/
def specConfidence (bias : CarBias) : ℚ :=
  max 0 (100 - (specPenalty bias.oversteer + specPenalty bias.brakingStability +
    specPenalty bias.cornering + specPenalty bias.traction + specPenalty bias.straights))

/-- The ordinal position of a feedback level in the spec's total order
`BAD < GOOD < GREAT < OPTIMAL`. -/
def specOrdinal : FeedbackType → ℤ
  | .BAD => 0
  | .GOOD => 1
  | .GREAT => 2
  | .OPTIMAL => 3

/-- The spec's convergence rate: the plain arithmetic mean of successive
confidence deltas, 0 with fewer than 2 attempts — with no clamping. -/
def specConvergenceRate (history : List AttemptRecord) : ℚ :=
  if history.length < 2 then 0
  else
    let confidences := history.map (·.confidence)
    let improvements := List.zipWith (fun a b => a - b) (confidences.drop 1) confidences
    improvements.foldl (· + ·) 0 / (improvements.length : ℚ)

/-- A feedback vector rating every metric BAD (used in concrete states). -/
def allBadFeedback : Biasfeedback := ⟨.BAD, .BAD, .BAD, .BAD, .BAD⟩

/-- The all-maximum setup `(1, 1, 1, 1, 1)`. -/
def fullSetupParams : SetupParameters := ⟨1, 1, 1, 1, 1⟩

/-- A realistic attempt history with strictly declining confidences: the
all-1 setup has confidence 75, the middle setup 35 (both values are the
calculator's own outputs for those setups). -/
def decliningHistory : List AttemptRecord :=
  [⟨fullSetupParams, allBadFeedback, 75⟩, ⟨middleSetupParams, allBadFeedback, 35⟩]

/-- An optimizer state holding the declining two-attempt history. -/
def decliningState : OptimizerState := ⟨[], decliningHistory⟩

/-- A setup with a component outside `[0, 1]`. -/
def outOfRangeSetup : SetupParameters := ⟨2, 5/10, 5/10, 5/10, 5/10⟩

/-- An optimizer state with an empty pool and empty history. -/
def emptyPoolState : OptimizerState := ⟨[], []⟩

/-! ## Shared lemmas -/

/-- The matrix pipeline of `calculateBias` computes exactly the spec's
per-metric dot products. -/
lemma calculateBias_spec (s : SetupParameters) : calculateBias s = specBias s := by
  obtain ⟨a, b, c, d, e⟩ := s
  have h : calculateBias ⟨a, b, c, d, e⟩ = CarBias.mk
      (5/10 + (0 + (a - 5/10) * (4/10) + (b - 5/10) * (-(4/10)) + (c - 5/10) * (-(1/10)) +
        (d - 5/10) * (1/10) + (e - 5/10) * (2/10)))
      (45/100 + (0 + (a - 5/10) * (-(2/10)) + (b - 5/10) * (2/10) + (c - 5/10) * (15/100) +
        (d - 5/10) * (-(25/100)) + (e - 5/10) * (-(5/100))))
      (2/10 + (0 + (a - 5/10) * (3/10) + (b - 5/10) * (25/100) + (c - 5/10) * (-(15/100)) +
        (d - 5/10) * (25/100) + (e - 5/10) * 0))
      (25/100 + (0 + (a - 5/10) * (-(15/100)) + (b - 5/10) * (25/100) + (c - 5/10) * (5/10) +
        (d - 5/10) * (-(1/10)) + (e - 5/10) * 0))
      (1 + (0 + (a - 5/10) * (-(1/10)) + (b - 5/10) * (-(9/10)) + (c - 5/10) * 0 +
        (d - 5/10) * 0 + (e - 5/10) * 0)) := rfl
  rw [h]
  simp only [specBias, specDot, SimpleMatrix.getRow, coefficientMatrix, initialBias,
    List.getD_cons_zero, List.getD_cons_succ, List.zipWith_cons_cons, List.zipWith_nil,
    List.foldl_cons, List.foldl_nil, CarBias.mk.injEq]
  refine ⟨by ring, by ring, by ring, by ring, by ring⟩

/-- The confidence loop computes exactly the spec's clamped penalty sum. -/
lemma calculateConfidence_spec (bias : CarBias) :
    calculateConfidence bias = specConfidence bias := by
  obtain ⟨v1, v2, v3, v4, v5⟩ := bias
  simp only [calculateConfidence, specConfidence, specPenalty, List.foldl_cons,
    List.foldl_nil]
  refine congrArg (max 0) ?_
  split_ifs <;> ring

/-- Every candidate produced by `evaluateVariation` carries feedback
compatible with the submitted feedback. -/
lemma evaluateVariation_feedback {feedback : Biasfeedback} {v : SetupParameters}
    {c : SetupCandidate} (h : evaluateVariation feedback v = some c) :
    feedbackMatches c.feedback feedback = true := by
  simp only [evaluateVariation] at h
  split_ifs at h with hm
  cases h
  exact hm

/-- Every candidate produced by the regeneration loop carries feedback
compatible with the submitted feedback. -/
lemma expandLoop_feedback {feedback : Biasfeedback} {rng : ℕ → ℚ}
    {c : SetupCandidate} :
    ∀ {cands : List SetupCandidate} {start : ℕ},
      c ∈ expandLoop feedback rng cands start →
      feedbackMatches c.feedback feedback = true := by
  intro cands
  induction cands with
  | nil => intro start h; simp [expandLoop] at h
  | cons cand rest ih =>
      intro start h
      rw [expandLoop, List.mem_append] at h
      rcases h with h | h
      · obtain ⟨v, _, hv⟩ := List.mem_filterMap.mp h
        exact evaluateVariation_feedback hv
      · exact ih h

/-- Sorting the pool does not change its membership. -/
lemma mem_sortByScore {c : SetupCandidate} {l : List SetupCandidate} :
    c ∈ sortByScore l ↔ c ∈ l :=
  (List.perm_insertionSort scoreGe l).mem_iff

/-- The sorted pool is sorted in descending score order. -/
lemma sortByScore_sorted (l : List SetupCandidate) :
    List.Sorted scoreGe (sortByScore l) :=
  List.sorted_insertionSort scoreGe l

/-- After `narrowCandidates`, every pool member's feedback is compatible
with the submitted feedback. -/
lemma narrowCandidates_all_compatible (cands : List SetupCandidate)
    (feedback : Biasfeedback) (rng : ℕ → ℚ) :
    ∀ c ∈ narrowCandidates cands feedback rng,
      feedbackMatches c.feedback feedback = true := by
  intro c hc
  rw [narrowCandidates] at hc
  rw [mem_sortByScore] at hc
  set filtered := cands.filter fun candidate => feedbackMatches candidate.feedback feedback
    with hfiltered
  have hfil : ∀ x ∈ filtered, feedbackMatches x.feedback feedback = true := by
    intro x hx
    exact (List.mem_filter.mp hx).2
  by_cases hlen : filtered.length < 5
  · rw [if_pos hlen] at hc
    rw [expandCandidatesAroundBest, List.mem_append] at hc
    rcases hc with hc | hc
    · exact hfil c hc
    · exact expandLoop_feedback hc
  · rw [if_neg hlen] at hc
    exact hfil c hc

/-! ## Claim theorems -/

/-- C1: for every setup vector, `calculateBias` equals
`initialBias + CoefficientMatrix · (setup − 0.5·𝟙)` computed
component-wise as a dot product over the 5 setup parameters, and in
particular the all-0.5 setup maps exactly to the initial-bias constant
{oversteer 0.5, brakingStability 0.45, cornering 0.2, traction 0.25,
straights 1.0}. -/
theorem calculateBias_matches_spec_invariant :
    (∀ s : SetupParameters, calculateBias s = specBias s) ∧
    calculateBias middleSetupParams = initialBias ∧
    initialBias = ⟨5/10, 45/100, 2/10, 25/100, 1⟩ := by
  refine ⟨calculateBias_spec, ?_, rfl⟩
  rw [calculateBias_spec]
  simp only [specBias, specDot, middleSetupParams, SimpleMatrix.getRow, coefficientMatrix,
    initialBias, List.getD_cons_zero, List.getD_cons_succ, List.zipWith_cons_cons,
    List.zipWith_nil, List.foldl_cons, List.foldl_nil, CarBias.mk.injEq]
  norm_num

/-- C2: for every bias vector, `calculateConfidence` equals the spec's
algorithm (start at 100; subtract `min(distance × 100, 20)` for every
component whose distance from 0.5 exceeds 0.007; clamp at ≥ 0), and for
the bias of the all-0.5 setup the result is exactly 35. -/
theorem calculateConfidence_matches_spec_and_middle_value :
    (∀ bias : CarBias, calculateConfidence bias = specConfidence bias) ∧
    calculateConfidence (calculateBias middleSetupParams) = 35 := by
  refine ⟨calculateConfidence_spec, ?_⟩
  rw [calculateBias_spec]
  have hmid : specBias middleSetupParams = initialBias := by
    simp only [specBias, specDot, middleSetupParams, SimpleMatrix.getRow, coefficientMatrix,
      initialBias, List.getD_cons_zero, List.getD_cons_succ, List.zipWith_cons_cons,
      List.zipWith_nil, List.foldl_cons, List.foldl_nil, CarBias.mk.injEq]
    norm_num
  rw [hmid, calculateConfidence_spec]
  simp only [specConfidence, specPenalty, initialBias]
  norm_num [min_def, max_def, abs_of_nonneg, abs_of_nonpos]

/-- C7: `calculateBias` is affine, so
`calculateBias a + calculateBias b − calculateBias mid =
calculateBias (a + b − mid)` component-wise and exactly, where mid is the
all-0.5 setup (exact rational arithmetic). -/
theorem calculateBias_linearity (a b : SetupParameters) :
    subBias (addBias (calculateBias a) (calculateBias b)) (calculateBias middleSetupParams) =
      calculateBias (subSetup (addSetup a b) middleSetupParams) := by
  obtain ⟨a1, a2, a3, a4, a5⟩ := a
  obtain ⟨b1, b2, b3, b4, b5⟩ := b
  simp only [calculateBias_spec, middleSetupParams, addSetup, subSetup, addBias, subBias,
    specBias, specDot, SimpleMatrix.getRow, coefficientMatrix, initialBias,
    List.getD_cons_zero, List.getD_cons_succ, List.zipWith_cons_cons, List.zipWith_nil,
    List.foldl_cons, List.foldl_nil, CarBias.mk.injEq]
  refine ⟨by ring, by ring, by ring, by ring, by ring⟩

/-- C8: feedback compatibility is reflexive and symmetric, holds exactly
when the ordinal positions in `BAD < GOOD < GREAT < OPTIMAL` differ by at
most 1 (so GOOD is compatible with BAD, GOOD, GREAT but not OPTIMAL), and
the calculator's `feedbackMatches` is the same relation. -/
theorem feedbackCompatible_refl_symm_ordinal :
    (∀ x : FeedbackType, feedbackCompatible x x = true) ∧
    (∀ x y : FeedbackType, feedbackCompatible x y = feedbackCompatible y x) ∧
    (∀ x y : FeedbackType,
      feedbackCompatible x y = true ↔ |specOrdinal x - specOrdinal y| ≤ 1) ∧
    (∀ x y : FeedbackType, calcFeedbackMatches x y = feedbackCompatible x y) ∧
    feedbackCompatible .GOOD .BAD = true ∧
    feedbackCompatible .GOOD .GREAT = true ∧
    feedbackCompatible .GOOD .OPTIMAL = false := by
  refine ⟨?_, ?_, ?_, ?_, ?_, ?_, ?_⟩ <;> decide

/-- C3 counterexample: on a realistic strictly-declining history
(confidences 75 then 35, the calculator's own outputs for the all-1 and
all-0.5 setups), the mean of successive deltas is −40, but `getStats`
reports a convergence rate of 0 — not the negative mean, because
`calculateConvergenceRate` clamps with `Math.max(0, ·)`. -/
theorem convergenceRate_negative_mean_counterexample :
    (getStats decliningState).convergenceRate = 0 ∧
    specConvergenceRate decliningState.attemptHistory = -40 ∧
    (getStats decliningState).convergenceRate ≠
      specConvergenceRate decliningState.attemptHistory := by
  have h1 : (getStats decliningState).convergenceRate = 0 := by
    show calculateConvergenceRate decliningHistory = 0
    norm_num [calculateConvergenceRate, decliningHistory, max_def]
  have h2 : specConvergenceRate decliningState.attemptHistory = -40 := by
    show specConvergenceRate decliningHistory = -40
    norm_num [specConvergenceRate, decliningHistory]
  refine ⟨h1, h2, ?_⟩
  rw [h1, h2]
  norm_num

/-- C3 amended: the convergence rate reported by `getStats` equals
`max 0 (mean of successive confidence deltas)` — 0 with fewer than 2
attempts, and 0 (not the negative mean) whenever the mean delta is
negative, e.g. when confidences strictly decline. -/
theorem convergenceRate_is_clamped_mean (s : OptimizerState) :
    (getStats s).convergenceRate = max 0 (specConvergenceRate s.attemptHistory) := by
  show calculateConvergenceRate s.attemptHistory = _
  simp only [calculateConvergenceRate, specConvergenceRate]
  split_ifs with h
  · simp
  · rfl

/-- C4 counterexample: the setup `(2, 0.5, 0.5, 0.5, 0.5)` has a
component outside `[0, 1]`, yet `predictConfidence` computes the value 5
for it and `recordAttempt` appends an attempt record — neither entry
point rejects the input (no `ValidationError` exists in the code). -/
theorem out_of_range_accepted_counterexample :
    1 < outOfRangeSetup.frontWingAngle ∧
    predictConfidence outOfRangeSetup = 5 ∧
    (recordAttempt emptyPoolState outOfRangeSetup allBadFeedback fun _ => 0).attemptHistory =
      [⟨outOfRangeSetup, allBadFeedback, predictConfidence outOfRangeSetup⟩] ∧
    (recordAttempt emptyPoolState outOfRangeSetup allBadFeedback fun _ => 0).attemptHistory ≠
      emptyPoolState.attemptHistory := by
  refine ⟨by norm_num [outOfRangeSetup], ?_, rfl, by simp [recordAttempt, emptyPoolState]⟩
  rw [predictConfidence, calculateBias_spec, calculateConfidence_spec]
  simp only [specBias, specDot, outOfRangeSetup, SimpleMatrix.getRow, coefficientMatrix,
    initialBias, List.getD_cons_zero, List.getD_cons_succ, List.zipWith_cons_cons,
    List.zipWith_nil, List.foldl_cons, List.foldl_nil, specConfidence, specPenalty]
  norm_num [min_def, max_def, abs_of_nonneg, abs_of_nonpos]

/-- C4 amended: the public entry points perform no range validation at
all: for every setup (components outside `[0, 1]` included),
`predictConfidence` returns the computed confidence of the computed bias,
and `recordAttempt` appends exactly one attempt record and narrows the
pool. -/
theorem entry_points_compute_without_validation (setup : SetupParameters)
    (s : OptimizerState) (feedback : Biasfeedback) (rng : ℕ → ℚ) :
    predictConfidence setup = calculateConfidence (calculateBias setup) ∧
    (recordAttempt s setup feedback rng).attemptHistory =
      s.attemptHistory ++ [⟨setup, feedback, calculateConfidence (calculateBias setup)⟩] ∧
    (recordAttempt s setup feedback rng).candidates =
      narrowCandidates s.candidates feedback rng :=
  ⟨rfl, rfl, rfl⟩

/-- C5: after `recordAttempt` (regeneration branch included), every
candidate remaining in the pool has feedback compatible with the
submitted feedback on all 5 metrics, and exactly one attempt record was
appended to the history. -/
theorem recordAttempt_pool_all_compatible (s : OptimizerState) (setup : SetupParameters)
    (feedback : Biasfeedback) (rng : ℕ → ℚ) :
    ((recordAttempt s setup feedback rng).candidates.all
      fun c => feedbackMatches c.feedback feedback) = true ∧
    (recordAttempt s setup feedback rng).attemptHistory =
      s.attemptHistory ++ [⟨setup, feedback, calculateConfidence (calculateBias setup)⟩] := by
  refine ⟨?_, rfl⟩
  rw [List.all_eq_true]
  intro c hc
  exact narrowCandidates_all_compatible s.candidates feedback rng c hc

/-- C6: the candidate pool is sorted by score in descending order after
every mutating operation: initial generation, `recordAttempt` (with or
without regeneration, which always ends in a re-sort), and `reset`. -/
theorem pool_sorted_after_every_mutation (s : OptimizerState) (setup : SetupParameters)
    (feedback : Biasfeedback) (rng : ℕ → ℚ) :
    List.Sorted scoreGe initialState.candidates ∧
    List.Sorted scoreGe initCandidates ∧
    List.Sorted scoreGe (recordAttempt s setup feedback rng).candidates ∧
    List.Sorted scoreGe (reset s).candidates := by
  have h0 : initCandidates = sortByScore initGrid := rfl
  have hinit : List.Sorted scoreGe initCandidates := by
    rw [h0]; exact sortByScore_sorted initGrid
  have h1 : initialState.candidates = initCandidates := by simp only [initialState]
  have h4 : (reset s).candidates = initCandidates := by simp only [reset]
  refine ⟨?_, hinit, sortByScore_sorted _, ?_⟩
  · rw [h1]; exact hinit
  · rw [h4]; exact hinit

/-- C9: `estimateAttemptsToOptimal` returns 0 when the best confidence is
at least 99; otherwise the fixed default 5 when the convergence rate is
not positive, and `ceil((99 − best) / rate)` when it is; whenever the
best confidence is below 99 the result is a positive integer. -/
theorem estimateAttemptsToOptimal_correct (s : OptimizerState) :
    estimateAttemptsToOptimal s =
      (if 99 ≤ (getStats s).bestConfidence then 0
       else if (getStats s).convergenceRate ≤ 0 then (5 : ℤ)
       else Int.ceil ((99 - (getStats s).bestConfidence) / (getStats s).convergenceRate)) ∧
    ((getStats s).bestConfidence < 99 → 0 < estimateAttemptsToOptimal s) := by
  constructor
  · rfl
  · intro h
    simp only [estimateAttemptsToOptimal]
    split_ifs with h1 h2
    · exact absurd h1 (not_le.mpr h)
    · norm_num
    · exact Int.ceil_pos.mpr (div_pos (by linarith) (lt_of_not_le h2))

/-- Witness for C9 at the concrete empty-pool state: its best confidence
0 is below 99, so the estimate is positive (it is the default 5). -/
theorem estimateAttemptsToOptimal_correct_witness :
    0 < estimateAttemptsToOptimal emptyPoolState :=
  (estimateAttemptsToOptimal_correct emptyPoolState).2
    (by norm_num [getStats, emptyPoolState])

/-- C10: with an empty candidate pool, `isOptimal` returns false and
`getStats` reports a best confidence of 0; neither operation fails. -/
theorem empty_pool_isOptimal_false_best_zero (s : OptimizerState)
    (h : s.candidates = []) :
    isOptimal s = false ∧ (getStats s).bestConfidence = 0 := by
  simp [isOptimal, getStats, h]

/-- Witness for C10 at the concrete empty state. -/
theorem empty_pool_isOptimal_false_best_zero_witness :
    isOptimal emptyPoolState = false ∧ (getStats emptyPoolState).bestConfidence = 0 :=
  empty_pool_isOptimal_false_best_zero emptyPoolState rfl

end F1Setup
